import Mathlib

/-!
Verification development for the opencollective-api repository.

Part 1 models the monthly platform-fee settlement engine
(`cron/monthly/invoice-platform-fees`).  The engine implementation itself is
not among the provided source files; only its test suite
(`test/cron/monthly/invoice-platform-fees.test.js`, bundled after
`src/server/constants/feature.ts`) is.  The definitions below are therefore
modelled from the spec (sections 3, 4, 8), except that wherever the test
suite pins a concrete expectation the test is authoritative: in particular
the test expects the "Platform Fees" expense item to carry the magnitude of
the collected platform fee (300 in the end-to-end scenario), not the
uncollected host-fee share (200).

Part 2 embeds the express middleware file (`src/unnamed/part_000`): the
GraphQL response cache middleware together with `formatResponse`, and the
rate-limiter configuration installed when a redis server is configured.
-/

namespace OpenCollective

/-- Modelled from the spec: JavaScript `Math.round`, which rounds to the
nearest integer with ties going up, i.e. `Math.round x = ⌊x + 1/2⌋`.
The engine computes on exact rationals (integer minor units divided by a
recorded rational rate), so this is the rounding used in section 4.3. -/
def jsRound (q : ℚ) : ℤ := ⌊q + 1 / 2⌋

/-- Modelled from the spec: section 3's Transaction record, restricted to the
fields the settlement engine reads.  Field names follow the test fixtures:
`platformFeeInHostCurrency`, `hostFeeInHostCurrency`, the
`PlatformTipForTransactionGroup` back-reference, the annotation bag entries
`settled` and `hostToPlatformFxRate`.  Amounts are integer minor units; the
recorded FX rate is an exact rational. -/
structure Transaction where
  id : ℕ
  type : String
  amount : ℤ
  currency : String
  createdAt : String
  transactionGroup : ℕ
  platformTipForTransactionGroup : Option ℕ
  platformFeeInHostCurrency : ℤ
  hostFeeInHostCurrency : ℤ
  hostToPlatformFxRate : Option ℚ
  settled : Bool
deriving DecidableEq

/-- Modelled from the spec: a transaction is a platform tip exactly when its
tip back-reference to another transaction group is present (section 4.2). -/
def isPlatformTip (t : Transaction) : Bool :=
  t.platformTipForTransactionGroup.isSome

/-- Modelled from the spec: contribution of one transaction to the Collected
Platform Fee bucket (section 4.2): the magnitude of
`platformFeeInHostCurrency` when present, for unsettled non-tip
transactions. -/
def feeContrib (t : Transaction) : ℤ :=
  if !t.settled && !isPlatformTip t && t.platformFeeInHostCurrency != 0 then
    -t.platformFeeInHostCurrency
  else 0

/-- Modelled from the spec: contribution of one transaction to the
Uncollected Host-Fee Share bucket (section 4.2): the magnitude of
`hostFeeInHostCurrency`, only when the platform fee is zero/absent, for
unsettled non-tip transactions. -/
def hostFeeShareContrib (t : Transaction) : ℤ :=
  if !t.settled && !isPlatformTip t && t.platformFeeInHostCurrency == 0 then
    -t.hostFeeInHostCurrency
  else 0

/-- Modelled from the spec: currency conversion of a tip (section 4.3),
`hostAmount = round (tipAmount / recordedRate)` using the rate recorded on
the transaction; a missing recorded rate yields `none` (excluded, never
estimated). -/
def tipConvert (t : Transaction) : Option ℤ :=
  match t.hostToPlatformFxRate with
  | some r => some (jsRound ((t.amount : ℚ) / r))
  | none => none

/-- Modelled from the spec: contribution of one transaction to the Platform
Tip Owed bucket, in converted host-side minor units; settled tips and tips
without a recorded rate contribute nothing. -/
def tipContrib (t : Transaction) : ℤ :=
  if !t.settled && isPlatformTip t then (tipConvert t).getD 0 else 0

/-- Modelled from the spec: per-host sum of the Collected Platform Fee
bucket (section 4.5). -/
def pendingPlatformFees (ts : List Transaction) : ℤ :=
  (ts.map feeContrib).sum

/-- Modelled from the spec: per-host sum of the Uncollected Host-Fee Share
bucket (section 4.5). -/
def pendingHostFeeShare (ts : List Transaction) : ℤ :=
  (ts.map hostFeeShareContrib).sum

/-- Modelled from the spec: per-host sum of converted Platform Tip Owed
amounts (section 4.5). -/
def pendingPlatformTips (ts : List Transaction) : ℤ :=
  (ts.map tipContrib).sum

/-- Modelled from the spec: the Revenue-Share Calculator (section 4.4)
applies the plan's share percentage to the Uncollected Host-Fee Share,
rounded to integer minor units.  A 0% plan yields no contribution. -/
def sharedRevenue (sharePercent : ℚ) (ts : List Transaction) : ℤ :=
  jsRound ((pendingHostFeeShare ts : ℚ) * sharePercent / 100)

/-- Modelled from the spec: an ExpenseItem, a named, amounted settlement
line (section 3). -/
structure ExpenseItem where
  description : String
  amount : ℤ
deriving DecidableEq

/-- Modelled from the spec: the SettlementExpense payable record (section 3):
currency is the host currency, the description names the period, and it is
marked as a platform-tip settlement (`data.isPlatformTipSettlement` in the
test suite). -/
structure SettlementExpense where
  currency : String
  description : String
  isPlatformTipSettlement : Bool
  items : List ExpenseItem
deriving DecidableEq

/-- Modelled from the spec: the platform-side CREDIT transaction issued for
the collected total (section 4.6). -/
structure CreditTransaction where
  type : String
  amount : ℤ
  description : String
deriving DecidableEq

/-- Modelled from the spec: one row of the CSV audit export, carrying id,
date, type, amount, currency and group id of a contributing transaction
(section 4.7). -/
structure CsvRow where
  id : ℕ
  date : String
  type : String
  amount : ℤ
  currency : String
  transactionGroup : ℕ
deriving DecidableEq

/-- Modelled from the spec: the stored CSV artifact attached to the
settlement expense (section 4.7): an external URL reference plus the
serialized rows. -/
structure AttachedFile where
  url : String
  rows : List CsvRow
deriving DecidableEq

/-- Modelled from the spec: a Host record (section 3) restricted to what the
engine reads: its currency and its plan's share percentage. -/
structure Host where
  id : ℕ
  currency : String
  hostFeeSharePercent : ℚ

/-- Modelled from the spec: terminal states of the per-host orchestrator
state machine (section 4.8). -/
inductive HostOutcome where
  | settledHost
  | skipped
  | failed
deriving DecidableEq

/-- Modelled from the spec: the ordered expense items of a settlement
(section 4.6): one item per non-zero bucket in the fixed order Platform
Fees, Platform Tips, Shared Revenue; a zero-totaled bucket produces no
item.  Per the authoritative test suite, the "Platform Fees" item carries
the collected platform fees (fees deducted by the host but not collected
through Stripe), while the uncollected host-fee share only feeds the
"Shared Revenue" item through the plan's share percentage. -/
def settlementItems (sharePercent : ℚ) (ts : List Transaction) : List ExpenseItem :=
  (if pendingPlatformFees ts != 0 then
    [ExpenseItem.mk "Platform Fees" (pendingPlatformFees ts)] else [])
  ++ (if pendingPlatformTips ts != 0 then
    [ExpenseItem.mk "Platform Tips" (pendingPlatformTips ts)] else [])
  ++ (if sharedRevenue sharePercent ts != 0 then
    [ExpenseItem.mk "Shared Revenue" (sharedRevenue sharePercent ts)] else [])

/-- Looks up the amount of the expense item with the given description, as
the test suite does with `expense.items.find`. -/
def itemAmount (items : List ExpenseItem) (d : String) : Option ℤ :=
  (items.find? (fun i => i.description == d)).map ExpenseItem.amount

/-- Modelled from the spec: whether a transaction contributes to the current
settlement and is therefore marked settled by the atomic financial write
(sections 4.2 and 5).  A tip without a recorded rate is excluded and left
for manual review, so it is not marked. -/
def contributes (t : Transaction) : Bool :=
  !t.settled &&
    (if isPlatformTip t then t.hostToPlatformFxRate.isSome
     else t.platformFeeInHostCurrency != 0 || t.hostFeeInHostCurrency != 0)

/-- Modelled from the spec: the settled annotation written by the financial
write for a single transaction; only the `settled` flag ever changes
(section 3: the engine never mutates amount/currency/fee fields). -/
def markTx (t : Transaction) : Transaction :=
  if contributes t then { t with settled := true } else t

/-- Modelled from the spec: mark every contributing transaction of the host
settled, atomically with the expense creation (section 5). -/
def markSettled (ts : List Transaction) : List Transaction :=
  ts.map markTx

/-- Modelled from the spec: the Audit Export rows (section 4.7), serializing
every contributing transaction with id, date, type, amount, currency and
group id. -/
def csvRows (ts : List Transaction) : List CsvRow :=
  (ts.filter contributes).map
    (fun t => CsvRow.mk t.id t.createdAt t.type t.amount t.currency t.transactionGroup)

/-- Result of the per-host settlement pipeline: the created expense and
credit transaction (if any), the attached audit export (if the export
succeeded), the orchestrator outcome and the updated ledger. -/
structure HostRunResult where
  expense : Option SettlementExpense
  credit : Option CreditTransaction
  attachment : Option AttachedFile
  outcome : HostOutcome
  ledger : List Transaction

/-- Modelled from the spec: the per-host pipeline of the settlement run
(sections 4.5 through 4.8): classify and aggregate the host's period
transactions; a host whose buckets are all zero is skipped with nothing
written; otherwise create exactly one settlement expense (host currency,
period description, platform-tip settlement mark, non-zero items in fixed
order), issue the platform-side credit for the collected total, mark the
contributing transactions settled, and attach the CSV export when the
external file store succeeds (`exportOk`); export failure is non-fatal and
leaves the financial write untouched. -/
def runHost (exportOk : Bool) (host : Host) (period : String)
    (ts : List Transaction) : HostRunResult :=
  let items := settlementItems host.hostFeeSharePercent ts
  if items.isEmpty then
    { expense := none, credit := none, attachment := none,
      outcome := HostOutcome.skipped, ledger := ts }
  else
    { expense := some
        { currency := host.currency,
          description := "Platform settlement for " ++ period,
          isPlatformTipSettlement := true,
          items := items },
      credit := some
        { type := "CREDIT",
          amount := pendingPlatformFees ts + pendingPlatformTips ts,
          description := "Platform Fees and Tips collected in " ++ period },
      attachment :=
        if exportOk then
          some { url := "transactions-" ++ period ++ ".csv", rows := csvRows ts }
        else none,
      outcome := HostOutcome.settledHost,
      ledger := markSettled ts }

/-- Modelled from the spec: the end-to-end scenario host of section 8 (test
fixture `gbpHost`): currency GBP, plan share rate 15%. -/
def gbpHost : Host :=
  { id := 100, currency := "GBP", hostFeeSharePercent := 15 }

/-- Modelled from the spec: scenario contribution with (platformFee,
hostFee) of (-300, -300). -/
def scenarioTx1 : Transaction :=
  { id := 1, type := "CREDIT", amount := 3000, currency := "GBP",
    createdAt := "2021-02-15", transactionGroup := 1,
    platformTipForTransactionGroup := none,
    platformFeeInHostCurrency := -300, hostFeeInHostCurrency := -300,
    hostToPlatformFxRate := none, settled := false }

/-- Modelled from the spec: scenario contribution with (platformFee,
hostFee) of (0, -200), the only transaction feeding the Uncollected
Host-Fee Share bucket. -/
def scenarioTx2 : Transaction :=
  { id := 2, type := "CREDIT", amount := 3000, currency := "GBP",
    createdAt := "2021-02-16", transactionGroup := 2,
    platformTipForTransactionGroup := none,
    platformFeeInHostCurrency := 0, hostFeeInHostCurrency := -200,
    hostToPlatformFxRate := none, settled := false }

/-- Modelled from the spec: scenario contribution with (platformFee,
hostFee) of (0, -300), annotated settled. -/
def scenarioTx3 : Transaction :=
  { id := 3, type := "CREDIT", amount := 3000, currency := "GBP",
    createdAt := "2021-02-17", transactionGroup := 3,
    platformTipForTransactionGroup := none,
    platformFeeInHostCurrency := 0, hostFeeInHostCurrency := -300,
    hostToPlatformFxRate := none, settled := true }

/-- Modelled from the spec: the fee-less scenario contribution opening
transaction group 4, the one the platform tip refers to. -/
def scenarioTx4 : Transaction :=
  { id := 4, type := "CREDIT", amount := 3000, currency := "GBP",
    createdAt := "2021-02-18", transactionGroup := 4,
    platformTipForTransactionGroup := none,
    platformFeeInHostCurrency := 0, hostFeeInHostCurrency := 0,
    hostToPlatformFxRate := none, settled := false }

/-- Modelled from the spec: the scenario platform tip of 1000 USD at
recorded rate 1.23, referencing transaction group 4. -/
def scenarioTip : Transaction :=
  { id := 5, type := "CREDIT", amount := 1000, currency := "USD",
    createdAt := "2021-02-18", transactionGroup := 5,
    platformTipForTransactionGroup := some 4,
    platformFeeInHostCurrency := 0, hostFeeInHostCurrency := 0,
    hostToPlatformFxRate := some (123 / 100), settled := false }

/-- Modelled from the spec: the section 8 end-to-end scenario transactions
(test fixtures): three same-period GBP contributions of amount 3000 with
(platformFee, hostFee) of (-300, -300), (0, -200) and (0, -300, settled), a
fee-less contribution opening transaction group 4, and the platform tip of
1000 USD recorded at rate 1.23 referencing that group. -/
def scenarioTransactions : List Transaction :=
  [scenarioTx1, scenarioTx2, scenarioTx3, scenarioTx4, scenarioTip]

/-- Evaluation of the scenario's Collected Platform Fee bucket: only the one
unsettled transaction with a non-zero platform fee counts, giving 300. -/
theorem scenario_fees : pendingPlatformFees scenarioTransactions = 300 := by
  decide

/-- Evaluation of the scenario's Uncollected Host-Fee Share bucket: only the
unsettled, fee-absent transaction counts, giving 200. -/
theorem scenario_hostFeeShare : pendingHostFeeShare scenarioTransactions = 200 := by
  decide

/-- Evaluation of the scenario's converted tip bucket: the 1000 USD tip at
recorded rate 1.23 converts to round (1000 / 1.23) = 813. -/
theorem scenario_tips : pendingPlatformTips scenarioTransactions = 813 := by
  norm_num [pendingPlatformTips, scenarioTransactions, scenarioTx1, scenarioTx2,
    scenarioTx3, scenarioTx4, scenarioTip, tipContrib, tipConvert,
    isPlatformTip, jsRound]

/-- Evaluation of the scenario's Shared Revenue at the 15% plan:
round (200 * 0.15) = 30. -/
theorem scenario_sharedRevenue : sharedRevenue 15 scenarioTransactions = 30 := by
  norm_num [sharedRevenue, scenario_hostFeeShare, jsRound]

/-- Evaluation of the scenario's expense items: all three buckets are
non-zero, so all three items appear, in the fixed order. -/
theorem scenario_items :
    settlementItems gbpHost.hostFeeSharePercent scenarioTransactions =
      [ExpenseItem.mk "Platform Fees" 300, ExpenseItem.mk "Platform Tips" 813,
        ExpenseItem.mk "Shared Revenue" 30] := by
  simp [settlementItems, gbpHost, scenario_fees, scenario_tips, scenario_sharedRevenue]

/-- Helper: a settled transaction contributes zero to each of the three
classification buckets. -/
theorem settled_no_contrib (t : Transaction) (h : t.settled = true) :
    feeContrib t = 0 ∧ hostFeeShareContrib t = 0 ∧ tipContrib t = 0 := by
  simp [feeContrib, hostFeeShareContrib, tipContrib, h]

/-- Helper: a transaction the financial write does not mark settled (already
settled, a tip without a recorded rate, or fee-free) contributes zero to
each bucket. -/
theorem not_contributes_no_contrib (t : Transaction) (h : contributes t = false) :
    feeContrib t = 0 ∧ hostFeeShareContrib t = 0 ∧ tipContrib t = 0 := by
  unfold contributes at h
  by_cases hs : t.settled
  · exact settled_no_contrib t hs
  · simp only [Bool.not_eq_true] at hs
    by_cases hp : isPlatformTip t
    · rw [hs] at h
      simp only [Bool.not_false, Bool.true_and, hp, if_true] at h
      refine ⟨?_, ?_, ?_⟩
      · simp [feeContrib, hp]
      · simp [hostFeeShareContrib, hp]
      · simp [tipContrib, tipConvert, hs, hp]
        cases hr : t.hostToPlatformFxRate with
        | none => simp
        | some r => rw [hr] at h; simp at h
    · simp only [Bool.not_eq_true] at hp
      rw [hs, hp] at h
      simp only [Bool.not_false, Bool.true_and, Bool.false_eq_true, if_false,
        Bool.or_eq_false_iff, bne_eq_false_iff_eq] at h
      refine ⟨?_, ?_, ?_⟩
      · simp [feeContrib, h.1]
      · simp [hostFeeShareContrib, h.2]
      · simp [tipContrib, hp]

/-- Helper: after the financial write annotates a transaction, it
contributes zero to every bucket. -/
theorem markTx_no_contrib (t : Transaction) :
    feeContrib (markTx t) = 0 ∧ hostFeeShareContrib (markTx t) = 0 ∧
      tipContrib (markTx t) = 0 := by
  unfold markTx
  by_cases hc : contributes t
  · simp only [hc, if_true]
    exact settled_no_contrib _ rfl
  · simp only [Bool.not_eq_true] at hc
    simp only [hc, Bool.false_eq_true, if_false]
    exact not_contributes_no_contrib t hc

/-- Helper: every bucket sum over a ledger whose contributing transactions
were just marked settled is zero. -/
theorem pending_markSettled (ts : List Transaction) :
    pendingPlatformFees (markSettled ts) = 0 ∧
      pendingHostFeeShare (markSettled ts) = 0 ∧
      pendingPlatformTips (markSettled ts) = 0 := by
  unfold pendingPlatformFees pendingHostFeeShare pendingPlatformTips markSettled
  refine ⟨List.sum_eq_zero ?_, List.sum_eq_zero ?_, List.sum_eq_zero ?_⟩ <;>
    · intro x hx
      simp only [List.map_map, List.mem_map, Function.comp] at hx
      obtain ⟨t, ht, rfl⟩ := hx
      have h := markTx_no_contrib t
      first
      | exact h.1
      | exact h.2.1
      | exact h.2.2

/-- Helper: rounding zero gives zero. -/
theorem jsRound_zero : jsRound 0 = 0 := by
  norm_num [jsRound]

/-- Helper: the Shared Revenue of a zero Uncollected Host-Fee Share is zero,
whatever the plan's share percentage. -/
theorem sharedRevenue_of_share_zero (p : ℚ) (ts : List Transaction)
    (h : pendingHostFeeShare ts = 0) : sharedRevenue p ts = 0 := by
  unfold sharedRevenue
  rw [h]
  norm_num [jsRound_zero]

/-- Helper: after the financial write, the Shared Revenue bucket is zero. -/
theorem sharedRevenue_markSettled (p : ℚ) (ts : List Transaction) :
    sharedRevenue p (markSettled ts) = 0 :=
  sharedRevenue_of_share_zero p _ (pending_markSettled ts).2.1

/-- Helper: the item list is empty exactly when all three buckets are
zero. -/
theorem settlementItems_eq_nil (p : ℚ) (ts : List Transaction) :
    settlementItems p ts = [] ↔
      pendingPlatformFees ts = 0 ∧ pendingPlatformTips ts = 0 ∧
        sharedRevenue p ts = 0 := by
  unfold settlementItems
  by_cases h1 : pendingPlatformFees ts = 0 <;>
    by_cases h2 : pendingPlatformTips ts = 0 <;>
      by_cases h3 : sharedRevenue p ts = 0 <;>
        simp [h1, h2, h3]

/-- Helper: every emitted expense item carries a non-zero amount. -/
theorem settlementItems_amounts_ne_zero (p : ℚ) (ts : List Transaction) :
    ∀ i ∈ settlementItems p ts, i.amount ≠ 0 := by
  unfold settlementItems
  by_cases h1 : pendingPlatformFees ts = 0 <;>
    by_cases h2 : pendingPlatformTips ts = 0 <;>
      by_cases h3 : sharedRevenue p ts = 0 <;>
        simp [h1, h2, h3]

/-- Helper: item descriptions appear in the fixed order Platform Fees,
Platform Tips, Shared Revenue. -/
theorem settlementItems_desc_sublist (p : ℚ) (ts : List Transaction) :
    List.Sublist ((settlementItems p ts).map ExpenseItem.description)
      ["Platform Fees", "Platform Tips", "Shared Revenue"] := by
  unfold settlementItems
  by_cases h1 : pendingPlatformFees ts = 0 <;>
    by_cases h2 : pendingPlatformTips ts = 0 <;>
      by_cases h3 : sharedRevenue p ts = 0 <;>
        simp [h1, h2, h3]

/-- Helper: after the financial write the item list is empty: nothing is
left to bill. -/
theorem settlementItems_markSettled (p : ℚ) (ts : List Transaction) :
    settlementItems p (markSettled ts) = [] :=
  (settlementItems_eq_nil p (markSettled ts)).mpr
    ⟨(pending_markSettled ts).1, (pending_markSettled ts).2.2,
      sharedRevenue_markSettled p ts⟩

/-- Helper: a host whose buckets are all zero is skipped: nothing is
written and the ledger is untouched. -/
theorem runHost_of_nil (exportOk : Bool) (host : Host) (period : String)
    (ts : List Transaction) (h : settlementItems host.hostFeeSharePercent ts = []) :
    runHost exportOk host period ts =
      { expense := none, credit := none, attachment := none,
        outcome := HostOutcome.skipped, ledger := ts } := by
  unfold runHost
  simp [h]

/-- Helper: a host with a non-zero aggregate gets the settlement expense,
the platform credit, the export attachment when the export succeeds, and
its contributing transactions marked settled. -/
theorem runHost_of_ne_nil (exportOk : Bool) (host : Host) (period : String)
    (ts : List Transaction) (h : settlementItems host.hostFeeSharePercent ts ≠ []) :
    runHost exportOk host period ts =
      { expense := some
          { currency := host.currency,
            description := "Platform settlement for " ++ period,
            isPlatformTipSettlement := true,
            items := settlementItems host.hostFeeSharePercent ts },
        credit := some
          { type := "CREDIT",
            amount := pendingPlatformFees ts + pendingPlatformTips ts,
            description := "Platform Fees and Tips collected in " ++ period },
        attachment :=
          if exportOk then
            some { url := "transactions-" ++ period ++ ".csv", rows := csvRows ts }
          else none,
        outcome := HostOutcome.settledHost,
        ledger := markSettled ts } := by
  unfold runHost
  simp [h]

/-- Evaluation of the scenario's item list being non-empty. -/
theorem scenario_items_ne_nil :
    settlementItems gbpHost.hostFeeSharePercent scenarioTransactions ≠ [] := by
  rw [scenario_items]
  simp

/-- Helper: the scenario tip converts to 813 host-side minor units. -/
theorem scenario_tipConvert : tipConvert scenarioTip = some 813 := by
  norm_num [tipConvert, scenarioTip, jsRound]

/-- C1 counterexample: in the section 8 end-to-end scenario the "Platform
Fees" expense item carries 300, the magnitude of the collected platform
fee, not 200, the uncollected host fee, contradicting the claim at its own
input (the test suite expects 300 at this exact scenario). -/
theorem c1_platformFees_item_not_200 :
    itemAmount (settlementItems gbpHost.hostFeeSharePercent scenarioTransactions)
        "Platform Fees" = some 300 ∧
      ¬ itemAmount (settlementItems gbpHost.hostFeeSharePercent scenarioTransactions)
          "Platform Fees" = some 200 := by
  rw [scenario_items]
  decide

/-- C1 (amended): the Settlement Aggregator maps the Collected Platform Fee
bucket to the "Platform Fees" expense item: whenever that bucket is
non-zero the item carries exactly its total; in the section 8 scenario
this is 300, the platform fee of the fee-bearing transaction, while the
uncollected host fee of 200 feeds only the Shared Revenue bucket. -/
theorem c1_platformFees_item_eq_collected (p : ℚ) (ts : List Transaction)
    (h : pendingPlatformFees ts ≠ 0) :
    itemAmount (settlementItems p ts) "Platform Fees" =
      some (pendingPlatformFees ts) := by
  unfold settlementItems itemAmount
  simp [h]

/-- C1 witness: the amended claim evaluated on the section 8 scenario. -/
theorem c1_platformFees_item_witness :
    pendingPlatformFees scenarioTransactions ≠ 0 ∧
      itemAmount (settlementItems gbpHost.hostFeeSharePercent scenarioTransactions)
          "Platform Fees" = some (pendingPlatformFees scenarioTransactions) ∧
      pendingPlatformFees scenarioTransactions = 300 := by
  have hne : pendingPlatformFees scenarioTransactions ≠ 0 := by
    rw [scenario_fees]
    decide
  exact ⟨hne,
    c1_platformFees_item_eq_collected gbpHost.hostFeeSharePercent
      scenarioTransactions hne,
    scenario_fees⟩

/-- C2: for every host with a non-zero aggregate the engine issues a
platform-side CREDIT transaction whose amount is the Collected Platform Fee
bucket plus the converted Platform Tip Owed bucket, described as the
platform fees and tips collected for the period. -/
theorem c2_platform_credit_collected_total (exportOk : Bool) (host : Host)
    (period : String) (ts : List Transaction)
    (h : settlementItems host.hostFeeSharePercent ts ≠ []) :
    (runHost exportOk host period ts).credit =
      some { type := "CREDIT",
             amount := pendingPlatformFees ts + pendingPlatformTips ts,
             description := "Platform Fees and Tips collected in " ++ period } := by
  rw [runHost_of_ne_nil exportOk host period ts h]

/-- C2 witness: in the section 8 scenario the credit amount is
300 + 813 = 1113. -/
theorem c2_platform_credit_witness :
    settlementItems gbpHost.hostFeeSharePercent scenarioTransactions ≠ [] ∧
      (runHost true gbpHost "February 2021" scenarioTransactions).credit =
        some { type := "CREDIT", amount := 1113,
               description := "Platform Fees and Tips collected in February 2021" } := by
  refine ⟨scenario_items_ne_nil, ?_⟩
  rw [c2_platform_credit_collected_total true gbpHost "February 2021"
    scenarioTransactions scenario_items_ne_nil, scenario_fees, scenario_tips]
  decide

/-- C3: for every platform tip with a recorded exchange rate, the converted
host-side amount is round (tipAmount / recordedRate) computed from the rate
recorded on the transaction, the rounding is to the nearest integer minor
unit (the result differs from the exact quotient by at most one half), and
conversion is a function of the recorded data alone, so repeated runs over
the same input give the identical result. -/
theorem c3_tip_conversion_recorded_rate (t : Transaction) (r : ℚ)
    (h : t.hostToPlatformFxRate = some r) :
    tipConvert t = some (jsRound ((t.amount : ℚ) / r)) ∧
      |((t.amount : ℚ) / r) - (jsRound ((t.amount : ℚ) / r) : ℚ)| ≤ 1 / 2 ∧
      ∀ u : Transaction, u = t → tipConvert u = tipConvert t := by
  refine ⟨by simp [tipConvert, h], ?_, fun u hu => by rw [hu]⟩
  have hr : jsRound ((t.amount : ℚ) / r) = round ((t.amount : ℚ) / r) :=
    (round_eq ((t.amount : ℚ) / r)).symm
  rw [hr]
  exact abs_sub_round ((t.amount : ℚ) / r)

/-- C3 witness: the scenario tip of 1000 at recorded rate 1.23 converts to
round (1000 / 1.23) = 813. -/
theorem c3_tip_conversion_witness :
    scenarioTip.hostToPlatformFxRate = some (123 / 100) ∧
      tipConvert scenarioTip =
        some (jsRound ((scenarioTip.amount : ℚ) / (123 / 100))) ∧
      tipConvert scenarioTip = some 813 :=
  ⟨rfl, (c3_tip_conversion_recorded_rate scenarioTip (123 / 100) rfl).1,
    scenario_tipConvert⟩

/-- C4: a transaction annotated settled contributes zero to every
classification bucket, adding it to any ledger changes no bucket sum, and
the settled annotation survives the financial write, so the transaction
stays excluded from all future billing. -/
theorem c4_settled_excluded (t : Transaction) (h : t.settled = true) :
    feeContrib t = 0 ∧ hostFeeShareContrib t = 0 ∧ tipContrib t = 0 ∧
      (∀ ts : List Transaction,
        pendingPlatformFees (t :: ts) = pendingPlatformFees ts ∧
          pendingHostFeeShare (t :: ts) = pendingHostFeeShare ts ∧
          pendingPlatformTips (t :: ts) = pendingPlatformTips ts) ∧
      (markTx t).settled = true := by
  obtain ⟨h1, h2, h3⟩ := settled_no_contrib t h
  refine ⟨h1, h2, h3, ?_, ?_⟩
  · intro ts
    simp [pendingPlatformFees, pendingHostFeeShare, pendingPlatformTips, h1, h2, h3]
  · unfold markTx contributes
    simp [h]

/-- C4 witness: the settled scenario transaction contributes to no bucket
and keeps its annotation. -/
theorem c4_settled_excluded_witness :
    scenarioTx3.settled = true ∧
      feeContrib scenarioTx3 = 0 ∧ hostFeeShareContrib scenarioTx3 = 0 ∧
      tipContrib scenarioTx3 = 0 ∧ (markTx scenarioTx3).settled = true := by
  have h := c4_settled_excluded scenarioTx3 rfl
  exact ⟨rfl, h.1, h.2.1, h.2.2.1, h.2.2.2.2⟩

/-- C5: fee classification is mutually exclusive per transaction: an
unsettled transaction with platform fee -300 contributes 300 to the
Collected Platform Fee bucket and nothing to Shared Revenue under any
plan; an unsettled transaction with platform fee 0 and host fee -200
contributes 200 to the Uncollected Host-Fee Share, round (200 * 15%) = 30
to Shared Revenue at a 15% plan, and produces no "Platform Fees" item; a
0% plan yields no Shared Revenue contribution on any ledger. -/
theorem c5_fee_classification_separation :
    (∀ t : Transaction, t.settled = false → isPlatformTip t = false →
        t.platformFeeInHostCurrency = -300 →
      feeContrib t = 300 ∧ hostFeeShareContrib t = 0 ∧
        ∀ p : ℚ, sharedRevenue p [t] = 0) ∧
    (∀ t : Transaction, t.settled = false → isPlatformTip t = false →
        t.platformFeeInHostCurrency = 0 → t.hostFeeInHostCurrency = -200 →
      hostFeeShareContrib t = 200 ∧ feeContrib t = 0 ∧
        sharedRevenue 15 [t] = 30 ∧
        itemAmount (settlementItems 15 [t]) "Platform Fees" = none) ∧
    (∀ ts : List Transaction, sharedRevenue 0 ts = 0) := by
  refine ⟨?_, ?_, ?_⟩
  · intro t hs hp hpf
    have hfee : feeContrib t = 300 := by
      simp [feeContrib, hs, hp, hpf]
    have hshare : hostFeeShareContrib t = 0 := by
      simp [hostFeeShareContrib, hs, hp, hpf]
    refine ⟨hfee, hshare, fun p => ?_⟩
    apply sharedRevenue_of_share_zero
    simp [pendingHostFeeShare, hshare]
  · intro t hs hp hpf hhf
    have hshare : hostFeeShareContrib t = 200 := by
      simp [hostFeeShareContrib, hs, hp, hpf, hhf]
    have hfee : feeContrib t = 0 := by
      simp [feeContrib, hs, hp, hpf]
    have htip : tipContrib t = 0 := by
      simp [tipContrib, hp]
    have hsr : sharedRevenue 15 [t] = 30 := by
      unfold sharedRevenue
      norm_num [pendingHostFeeShare, hshare, jsRound]
    refine ⟨hshare, hfee, hsr, ?_⟩
    unfold settlementItems itemAmount
    norm_num [pendingPlatformFees, pendingPlatformTips, hfee, htip, hsr]
    exact fun hx => absurd hx (by decide)
  · intro ts
    unfold sharedRevenue
    norm_num [jsRound]

/-- C5 witness: the separation facts evaluated on the two scenario
contributions and the scenario ledger. -/
theorem c5_fee_classification_witness :
    (feeContrib scenarioTx1 = 300 ∧ hostFeeShareContrib scenarioTx1 = 0 ∧
      sharedRevenue 15 [scenarioTx1] = 0) ∧
    (hostFeeShareContrib scenarioTx2 = 200 ∧ feeContrib scenarioTx2 = 0 ∧
      sharedRevenue 15 [scenarioTx2] = 30 ∧
      itemAmount (settlementItems 15 [scenarioTx2]) "Platform Fees" = none) ∧
    sharedRevenue 0 scenarioTransactions = 0 := by
  obtain ⟨ha, hb, hc⟩ := c5_fee_classification_separation
  have h1 := ha scenarioTx1 rfl rfl rfl
  have h2 := hb scenarioTx2 rfl rfl rfl rfl
  exact ⟨⟨h1.1, h1.2.1, h1.2.2 15⟩, h2, hc scenarioTransactions⟩

/-- C6: a host's settlement expense exists exactly when some bucket is
non-zero (an all-zero host produces no settlement), and the one expense
produced carries the host's currency, a description naming the period, the
platform-tip settlement mark, and one item per non-zero bucket, every item
non-zero, in the fixed order Platform Fees, Platform Tips, Shared
Revenue. -/
theorem c6_settlement_expense_shape (exportOk : Bool) (host : Host)
    (period : String) (ts : List Transaction) :
    ((runHost exportOk host period ts).expense = none ↔
      pendingPlatformFees ts = 0 ∧ pendingPlatformTips ts = 0 ∧
        sharedRevenue host.hostFeeSharePercent ts = 0) ∧
    ∀ e : SettlementExpense, (runHost exportOk host period ts).expense = some e →
      e.currency = host.currency ∧
      e.description = "Platform settlement for " ++ period ∧
      e.isPlatformTipSettlement = true ∧
      e.items = settlementItems host.hostFeeSharePercent ts ∧
      (∀ i ∈ e.items, i.amount ≠ 0) ∧
      List.Sublist (e.items.map ExpenseItem.description)
        ["Platform Fees", "Platform Tips", "Shared Revenue"] := by
  by_cases h : settlementItems host.hostFeeSharePercent ts = []
  · rw [runHost_of_nil exportOk host period ts h]
    have hz := (settlementItems_eq_nil host.hostFeeSharePercent ts).mp h
    constructor
    · simp [hz.1, hz.2.1, hz.2.2]
    · intro e he
      exact absurd he (by simp)
  · rw [runHost_of_ne_nil exportOk host period ts h]
    constructor
    · constructor
      · intro he
        exact absurd he (by simp)
      · intro hz
        exact absurd ((settlementItems_eq_nil host.hostFeeSharePercent ts).mpr hz) h
    · intro e he
      simp only [Option.some.injEq] at he
      subst he
      exact ⟨rfl, rfl, rfl, rfl,
        settlementItems_amounts_ne_zero host.hostFeeSharePercent ts,
        settlementItems_desc_sublist host.hostFeeSharePercent ts⟩

/-- Concrete expense of the section 8 scenario, used by the C6 witness. -/
def scenarioExpense : SettlementExpense :=
  { currency := "GBP",
    description := "Platform settlement for February 2021",
    isPlatformTipSettlement := true,
    items := [ExpenseItem.mk "Platform Fees" 300, ExpenseItem.mk "Platform Tips" 813,
      ExpenseItem.mk "Shared Revenue" 30] }

/-- Helper: the scenario run produces exactly the concrete scenario
expense. -/
theorem scenario_expense_eq :
    (runHost true gbpHost "February 2021" scenarioTransactions).expense =
      some scenarioExpense := by
  rw [runHost_of_ne_nil true gbpHost "February 2021" scenarioTransactions
    scenario_items_ne_nil]
  simp only [scenario_items]
  decide

/-- C6 witness: the expense shape evaluated on the section 8 scenario. -/
theorem c6_settlement_expense_witness :
    (runHost true gbpHost "February 2021" scenarioTransactions).expense =
      some scenarioExpense ∧
    scenarioExpense.currency = gbpHost.currency ∧
    scenarioExpense.description = "Platform settlement for February 2021" ∧
    scenarioExpense.isPlatformTipSettlement = true ∧
    scenarioExpense.items =
      settlementItems gbpHost.hostFeeSharePercent scenarioTransactions ∧
    List.Sublist (scenarioExpense.items.map ExpenseItem.description)
      ["Platform Fees", "Platform Tips", "Shared Revenue"] := by
  have h := (c6_settlement_expense_shape true gbpHost "February 2021"
    scenarioTransactions).2 scenarioExpense scenario_expense_eq
  exact ⟨scenario_expense_eq, h.1, by rw [h.2.1]; rfl, h.2.2.1, h.2.2.2.1,
    h.2.2.2.2.2⟩

/-- C7: the settlement run is idempotent: running the engine again on the
ledger left by a first run creates no expense and no credit and lands the
host in the Skipped terminal state, while the first run creates the one
settlement expense exactly when the host has a non-zero aggregate; hence
two consecutive runs produce exactly one settlement expense per settled
host and the second run settles zero hosts. -/
theorem c7_settlement_run_idempotent (eo1 eo2 : Bool) (host : Host)
    (period : String) (ts : List Transaction) :
    (runHost eo2 host period (runHost eo1 host period ts).ledger).expense = none ∧
    (runHost eo2 host period (runHost eo1 host period ts).ledger).credit = none ∧
    (runHost eo2 host period (runHost eo1 host period ts).ledger).outcome =
      HostOutcome.skipped ∧
    ((runHost eo1 host period ts).expense.isSome = true ↔
      settlementItems host.hostFeeSharePercent ts ≠ []) := by
  by_cases h : settlementItems host.hostFeeSharePercent ts = []
  · rw [runHost_of_nil eo1 host period ts h]
    simp only []
    rw [runHost_of_nil eo2 host period ts h]
    simp [h]
  · rw [runHost_of_ne_nil eo1 host period ts h]
    simp only []
    rw [runHost_of_nil eo2 host period (markSettled ts)
      (settlementItems_markSettled host.hostFeeSharePercent ts)]
    simp [h]

/-- C7 witness: a rerun over the settled section 8 scenario ledger writes
nothing and is skipped, while the first run did settle the host. -/
theorem c7_settlement_run_idempotent_witness :
    (runHost true gbpHost "February 2021"
        (runHost true gbpHost "February 2021" scenarioTransactions).ledger).expense =
      none ∧
    (runHost true gbpHost "February 2021"
        (runHost true gbpHost "February 2021" scenarioTransactions).ledger).outcome =
      HostOutcome.skipped ∧
    (runHost true gbpHost "February 2021" scenarioTransactions).expense.isSome =
      true := by
  have h := c7_settlement_run_idempotent true true gbpHost "February 2021"
    scenarioTransactions
  exact ⟨h.1, h.2.2.1, h.2.2.2.mpr scenario_items_ne_nil⟩

/-- C8: the audit export is decoupled from the financial write: a failed
export changes neither the expense, the credit, the updated ledger nor the
outcome (only the attachment is missing); when the export succeeds the
attachment names a CSV file for the period and serializes every
contributing transaction with its id, date, type, amount, currency and
transaction group; whenever an expense is created, a successful export is
attached to it. -/
theorem c8_audit_export_decoupled (host : Host) (period : String)
    (ts : List Transaction) :
    (runHost false host period ts).expense = (runHost true host period ts).expense ∧
    (runHost false host period ts).credit = (runHost true host period ts).credit ∧
    (runHost false host period ts).ledger = (runHost true host period ts).ledger ∧
    (runHost false host period ts).outcome = (runHost true host period ts).outcome ∧
    (runHost false host period ts).attachment = none ∧
    (∀ a : AttachedFile, (runHost true host period ts).attachment = some a →
      a.url = "transactions-" ++ period ++ ".csv" ∧ a.rows = csvRows ts ∧
      ∀ t ∈ ts, contributes t = true →
        CsvRow.mk t.id t.createdAt t.type t.amount t.currency t.transactionGroup ∈
          a.rows) ∧
    ((runHost true host period ts).expense.isSome = true →
      (runHost true host period ts).attachment.isSome = true) := by
  by_cases h : settlementItems host.hostFeeSharePercent ts = []
  · rw [runHost_of_nil false host period ts h, runHost_of_nil true host period ts h]
    simp
  · rw [runHost_of_ne_nil false host period ts h,
      runHost_of_ne_nil true host period ts h]
    refine ⟨rfl, rfl, rfl, rfl, by norm_num, ?_, by norm_num⟩
    intro a ha
    norm_num at ha
    subst ha
    refine ⟨rfl, rfl, ?_⟩
    intro t ht hc
    exact List.mem_map_of_mem _ (List.mem_filter.mpr ⟨ht, hc⟩)

/-- C8 witness: on the section 8 scenario the financial write is identical
with and without a successful export, the successful export attaches the
period CSV, and the fee-bearing contribution is serialized in it. -/
theorem c8_audit_export_witness :
    (runHost false gbpHost "February 2021" scenarioTransactions).expense =
      (runHost true gbpHost "February 2021" scenarioTransactions).expense ∧
    (runHost false gbpHost "February 2021" scenarioTransactions).attachment =
      none ∧
    (runHost true gbpHost "February 2021" scenarioTransactions).attachment =
      some { url := "transactions-February 2021.csv",
             rows := csvRows scenarioTransactions } ∧
    CsvRow.mk 1 "2021-02-15" "CREDIT" 3000 "GBP" 1 ∈
      csvRows scenarioTransactions := by
  have h := c8_audit_export_decoupled gbpHost "February 2021" scenarioTransactions
  have hatt : (runHost true gbpHost "February 2021" scenarioTransactions).attachment =
      some { url := "transactions-February 2021.csv",
             rows := csvRows scenarioTransactions } := by
    rw [runHost_of_ne_nil true gbpHost "February 2021" scenarioTransactions
      scenario_items_ne_nil]
    simp
  have hmem := (h.2.2.2.2.2.1 _ hatt).2.2 scenarioTx1
    (by simp [scenarioTransactions]) rfl
  exact ⟨h.1, h.2.2.2.2.1, hatt, hmem⟩

/-! ## Part 2: express middleware (`src/unnamed/part_000`) -/

/-- A GraphQL response; `hasErrors` models `response?.errors` being
present (a non-empty error list). -/
structure GqlResponse where
  body : String
  hasErrors : Bool
deriving DecidableEq

/-- The request data read by the caching middleware: `cacheKeyOf` is the
result of `getGraphqlCacheKey req` (`none` when the request has no cache
key). -/
structure GqlRequest where
  cacheKeyOf : Option String
deriving DecidableEq

/-- The `config.graphql.cache` configuration: `enabled` is
`parseToBoolean config.graphql.cache.enabled`, `ttl` the cache TTL passed
to `cache.set` (its expiry behaviour is not modelled). -/
structure GqlCacheConfig where
  enabled : Bool
  ttl : ℕ

/-- The shared response cache (`lib/cache`), modelled as an association
list from cache keys to stored responses; this is `cache.get`. -/
def cacheGet (store : List (String × GqlResponse)) (k : String) :
    Option GqlResponse :=
  (store.find? (fun e => e.1 == k)).map Prod.snd

/-- The cache write `cache.set key response ttl` (TTL expiry itself is not
modelled). -/
def cacheSet (store : List (String × GqlResponse)) (k : String)
    (v : GqlResponse) : List (String × GqlResponse) :=
  (k, v) :: store

/-- Observable outcome of one GraphQL request: the response sent, the
`servedFromGraphqlCache` flag set on the express response object, whether
the Apollo executor ran, and the cache contents afterwards. -/
structure GqlOutcome where
  response : GqlResponse
  servedFromGraphqlCache : Bool
  executorInvoked : Bool
  cacheAfter : List (String × GqlResponse)
deriving DecidableEq

/-- Embedded from `src/unnamed/part_000`, lines 120-137 and 162-173: the
`/graphql` caching middleware composed with Apollo's `formatResponse`.
When the request has a cache key and the cache is enabled, a cache hit is
sent directly (flagging `servedFromGraphqlCache`) without reaching the
GraphQL server; on a miss `req.cacheKey` is set, the executor runs, and
`formatResponse` stores the response under that key only when it has no
errors.  Without a key, or with caching disabled, `req.cacheKey` stays
unset and `formatResponse` writes nothing. -/
def handleGraphqlRequest (cfg : GqlCacheConfig)
    (store : List (String × GqlResponse)) (req : GqlRequest)
    (executor : GqlRequest → GqlResponse) : GqlOutcome :=
  match req.cacheKeyOf, cfg.enabled with
  | some k, true =>
    match cacheGet store k with
    | some v =>
      { response := v, servedFromGraphqlCache := true, executorInvoked := false,
        cacheAfter := store }
    | none =>
      let resp := executor req
      { response := resp, servedFromGraphqlCache := false,
        executorInvoked := true,
        cacheAfter := if !resp.hasErrors then cacheSet store k resp else store }
  | _, _ =>
    let resp := executor req
    { response := resp, servedFromGraphqlCache := false,
      executorInvoked := true, cacheAfter := store }

/-- A registered client application (`req.clientApp`). -/
structure ClientApp where
  id : ℕ
deriving DecidableEq

/-- The request data read by the rate limiter: the authenticated client
app if any, the client ip, and the `api_key` taken from the query string
or the body. -/
structure ApiRequest where
  clientApp : Option ClientApp
  ip : String
  queryApiKey : Option String
  bodyApiKey : Option String

/-- The server configuration read by the middleware file:
`config.redis.serverUrl` and `config.keys.opencollective.apiKey`. -/
structure ApiConfig where
  redisServerUrl : Option String
  opencollectiveApiKey : String

/-- The options the `lookup` callback fills in for `express-limiter`: the
key the counter is attached to, the request budget `total`, and the window
length `expire` in milliseconds. -/
structure LimiterOpts where
  lookupField : String
  total : ℕ
  expire : ℕ
deriving DecidableEq

/-- Embedded from `src/unnamed/part_000`, lines 57-70: requests from a
registered client app are counted per `clientApp.id` with 100 requests per
minute; anonymous requests are counted per `ip` with 10 requests per
minute. -/
def rateLimitLookup (req : ApiRequest) : LimiterOpts :=
  match req.clientApp with
  | some _ => { lookupField := "clientApp.id", total := 100, expire := 1000 * 60 }
  | none => { lookupField := "ip", total := 10, expire := 1000 * 60 }

/-- Embedded from `src/unnamed/part_000`, line 72: the request's api key,
`req.query.api_key || req.body.api_key`. -/
def requestApiKey (req : ApiRequest) : Option String :=
  req.queryApiKey <|> req.bodyApiKey

/-- Embedded from `src/unnamed/part_000`, lines 71-75: the whitelist
callback; a request whose api key equals the platform's internal API key is
exempt from rate limiting. -/
def rateLimitWhitelist (cfg : ApiConfig) (req : ApiRequest) : Bool :=
  requestApiKey req == some cfg.opencollectiveApiKey

/-- An HTTP reply as produced by `res.status(...).send(...)`. -/
structure HttpReply where
  status : ℕ
  message : String
deriving DecidableEq

/-- Embedded from `src/unnamed/part_000`, lines 76-84: the `onRateLimited`
callback replies 429 with a message explaining how to get higher limits. -/
def onRateLimited (req : ApiRequest) : HttpReply :=
  { status := 429,
    message :=
      match req.clientApp with
      | some _ => "Rate limit exceeded. Contact-us to get higher limits."
      | none => "Rate limit exceeded. Create an API Key to get higher limits." }

/-- Semantics of the third-party `express-limiter` middleware under the
configuration above: `priorCount` is the number of requests already served
for the looked-up key inside the current `expire` window; a whitelisted
request always passes, a request beyond the `total` budget is answered by
`onRateLimited`, and otherwise the request proceeds (`none`). -/
def rateLimitGate (cfg : ApiConfig) (req : ApiRequest) (priorCount : ℕ) :
    Option HttpReply :=
  if rateLimitWhitelist cfg req then none
  else if (rateLimitLookup req).total ≤ priorCount then some (onRateLimited req)
  else none

/-- Embedded from `src/unnamed/part_000`, lines 51-87: the limiter is
created and mounted on `/graphql` only when `config.redis.serverUrl` is
set; without redis no rate limiting happens. -/
def graphqlRateLimit (cfg : ApiConfig) (req : ApiRequest) (priorCount : ℕ) :
    Option HttpReply :=
  if cfg.redisServerUrl.isSome then rateLimitGate cfg req priorCount else none

/-- C9: a response is written to the shared GraphQL cache only when the
request carried a cache key with caching enabled and the response has no
errors (the written entry being exactly that response under that key); a
response with errors never changes the cache; and when a cached entry
exists for an enabled cache key the request is answered with the cached
response, flagged `servedFromGraphqlCache`, without invoking the GraphQL
executor. -/
theorem c9_graphql_cache_policy (cfg : GqlCacheConfig)
    (store : List (String × GqlResponse)) (req : GqlRequest)
    (executor : GqlRequest → GqlResponse) :
    ((handleGraphqlRequest cfg store req executor).cacheAfter ≠ store →
      ∃ k, req.cacheKeyOf = some k ∧ cfg.enabled = true ∧
        (handleGraphqlRequest cfg store req executor).response.hasErrors = false ∧
        (handleGraphqlRequest cfg store req executor).cacheAfter =
          cacheSet store k (handleGraphqlRequest cfg store req executor).response) ∧
    ((handleGraphqlRequest cfg store req executor).response.hasErrors = true →
      (handleGraphqlRequest cfg store req executor).cacheAfter = store) ∧
    (∀ k v, req.cacheKeyOf = some k → cfg.enabled = true →
      cacheGet store k = some v →
      (handleGraphqlRequest cfg store req executor).response = v ∧
        (handleGraphqlRequest cfg store req executor).servedFromGraphqlCache =
          true ∧
        (handleGraphqlRequest cfg store req executor).executorInvoked = false) := by
  unfold handleGraphqlRequest
  cases hk : req.cacheKeyOf with
  | none => simp
  | some k0 =>
    cases he : cfg.enabled with
    | false => simp
    | true =>
      cases hg : cacheGet store k0 with
      | some v0 =>
        simp [hg]
        intro k v hkk hv
        subst hkk
        rw [hg] at hv
        exact Option.some_inj.mp hv
      | none =>
        by_cases hr : (executor req).hasErrors
        · simp [hg, hr]
          intro k v hkk
          subst hkk
          simp [hg]
        · simp only [Bool.not_eq_true] at hr
          simp [hg, hr]
          intro k v hkk
          subst hkk
          simp [hg]

/-- C9 witness: with caching enabled and an entry stored under the
request's key, the cached response is served, flagged, and the executor
does not run. -/
theorem c9_graphql_cache_witness :
    (handleGraphqlRequest (GqlCacheConfig.mk true 300)
        [("q1", GqlResponse.mk "cached" false)] (GqlRequest.mk (some "q1"))
        (fun _ => GqlResponse.mk "fresh" false)).response =
      GqlResponse.mk "cached" false ∧
    (handleGraphqlRequest (GqlCacheConfig.mk true 300)
        [("q1", GqlResponse.mk "cached" false)] (GqlRequest.mk (some "q1"))
        (fun _ => GqlResponse.mk "fresh" false)).servedFromGraphqlCache = true ∧
    (handleGraphqlRequest (GqlCacheConfig.mk true 300)
        [("q1", GqlResponse.mk "cached" false)] (GqlRequest.mk (some "q1"))
        (fun _ => GqlResponse.mk "fresh" false)).executorInvoked = false := by
  have h := (c9_graphql_cache_policy (GqlCacheConfig.mk true 300)
    [("q1", GqlResponse.mk "cached" false)] (GqlRequest.mk (some "q1"))
    (fun _ => GqlResponse.mk "fresh" false)).2.2 "q1"
    (GqlResponse.mk "cached" false) rfl rfl (by decide)
  exact ⟨h.1, h.2.1, h.2.2⟩

/-- C10: when a redis server is configured, requests from a registered
client app are budgeted 100 requests per minute counted per app id and
anonymous requests 10 requests per minute counted per ip; a request beyond
its budget is answered with HTTP status 429 and an explanatory message;
and a request whose api key equals the platform's internal API key is
never rate limited. -/
theorem c10_graphql_rate_limiting (cfg : ApiConfig) (req : ApiRequest) (n : ℕ)
    (hredis : cfg.redisServerUrl.isSome = true) :
    (req.clientApp.isSome = true →
      rateLimitLookup req = LimiterOpts.mk "clientApp.id" 100 60000) ∧
    (req.clientApp = none →
      rateLimitLookup req = LimiterOpts.mk "ip" 10 60000) ∧
    (∀ reply, graphqlRateLimit cfg req n = some reply →
      reply.status = 429 ∧ reply = onRateLimited req ∧
        rateLimitWhitelist cfg req = false ∧ (rateLimitLookup req).total ≤ n) ∧
    (requestApiKey req = some cfg.opencollectiveApiKey →
      graphqlRateLimit cfg req n = none) ∧
    (rateLimitWhitelist cfg req = false → (rateLimitLookup req).total ≤ n →
      graphqlRateLimit cfg req n = some (onRateLimited req)) := by
  refine ⟨?_, ?_, ?_, ?_, ?_⟩
  · intro hc
    cases hca : req.clientApp with
    | none => rw [hca] at hc; simp at hc
    | some app => simp [rateLimitLookup, hca]
  · intro hc
    simp [rateLimitLookup, hc]
  · intro reply hrep
    unfold graphqlRateLimit rateLimitGate at hrep
    rw [if_pos hredis] at hrep
    by_cases hw : rateLimitWhitelist cfg req
    · rw [if_pos hw] at hrep
      exact absurd hrep (by simp)
    · simp only [Bool.not_eq_true] at hw
      rw [hw] at hrep
      simp only [Bool.false_eq_true, if_false] at hrep
      by_cases hn : (rateLimitLookup req).total ≤ n
      · rw [if_pos hn] at hrep
        simp only [Option.some.injEq] at hrep
        subst hrep
        exact ⟨rfl, rfl, hw, hn⟩
      · rw [if_neg hn] at hrep
        exact absurd hrep (by simp)
  · intro hkey
    unfold graphqlRateLimit rateLimitGate
    rw [if_pos hredis]
    have hw : rateLimitWhitelist cfg req = true := by
      simp [rateLimitWhitelist, hkey]
    rw [hw]
    simp
  · intro hw hn
    unfold graphqlRateLimit rateLimitGate
    rw [if_pos hredis, hw]
    simp only [Bool.false_eq_true, if_false]
    rw [if_pos hn]

/-- C10 witness: with redis configured, the eleventh anonymous request in a
minute gets the 429 reply with the explanatory message, and a request
presenting the internal API key passes even far beyond the budget. -/
theorem c10_graphql_rate_limiting_witness :
    rateLimitLookup (ApiRequest.mk none "1.2.3.4" none none) =
      LimiterOpts.mk "ip" 10 60000 ∧
    graphqlRateLimit (ApiConfig.mk (some "redis://test") "internal-key")
        (ApiRequest.mk none "1.2.3.4" none none) 10 =
      some (HttpReply.mk 429
        "Rate limit exceeded. Create an API Key to get higher limits.") ∧
    graphqlRateLimit (ApiConfig.mk (some "redis://test") "internal-key")
        (ApiRequest.mk none "1.2.3.4" (some "internal-key") none) 1000 =
      none := by
  have h1 := (c10_graphql_rate_limiting
    (ApiConfig.mk (some "redis://test") "internal-key")
    (ApiRequest.mk none "1.2.3.4" none none) 10 rfl).2.1 rfl
  have h2 := (c10_graphql_rate_limiting
    (ApiConfig.mk (some "redis://test") "internal-key")
    (ApiRequest.mk none "1.2.3.4" none none) 10 rfl).2.2.2.2
    (by decide) (by rw [h1])
  have h3 := (c10_graphql_rate_limiting
    (ApiConfig.mk (some "redis://test") "internal-key")
    (ApiRequest.mk none "1.2.3.4" (some "internal-key") none) 1000 rfl).2.2.2.1
    rfl
  exact ⟨h1, by rw [h2]; rfl, h3⟩

end OpenCollective
